import Mathlib

/-!
Verification of the `TensorFlowModelDataset` / `TensorFlowModelVersionedDataset`
adapters of `src/kedro/io/tensorflow_model_data_set.py`.

The adapters are pure glue: option merging, path handling, and delegation to
external serialization routines.  We embed:

* Python dicts as association lists with Python's `dict.update` /
  `dict.__setitem__` semantics (replace in place when the key exists,
  append otherwise);
* the two classes as structures whose constructors mirror `__init__`
  statement by statement;
* the external TensorFlow `load_model` / `save_model` routines and the
  filesystem as parameters (`Except`-valued functions and a `World` record);
* a small explicit heap of dict cells to state the deep-copy / no-mutation
  claims about `__init__` (Python dicts are mutable reference cells, so
  aliasing must be modelled to talk about mutation leakage).

Helpers that live in kedro core rather than in this file
(`get_protocol_and_path`, `AbstractVersionedDataSet._get_load_path` /
`_get_save_path`) are modelled from the spec and marked as such.
-/

/-- A Python scalar value, as far as the option mappings of this file need. -/
inductive PyVal where
  | vNone
  | vBool (b : Bool)
  | vStr (s : String)
  | vInt (n : Int)
deriving DecidableEq, Repr

/-- A Python dict: association list of string keys to values.  Entries model
insertion order; a well-formed dict has pairwise distinct keys. -/
abbrev PyDict := List (String × PyVal)

/-- `d[k]` lookup: first entry with key `k`, if any. -/
def dget : PyDict → String → Option PyVal
  | [], _ => Option.none
  | (k', v) :: rest, k => if k' = k then Option.some v else dget rest k

/-- Python `d[k] = v`: replace the value in place when the key exists
(keeping its position), append at the end otherwise. -/
def setKey : PyDict → String → PyVal → PyDict
  | [], k, v => [(k, v)]
  | (k', v') :: rest, k, v =>
      if k' = k then (k, v) :: rest else (k', v') :: setKey rest k v

/-- Python `d.update(u)`: set every entry of `u` into `d`, in order. -/
def dictUpdate (d u : PyDict) : PyDict :=
  u.foldl (fun acc p => setKey acc p.1 p.2) d

/-- The keys of a dict, in order. -/
def dkeys (d : PyDict) : List String := d.map Prod.fst

/-- An opaque trained-model artifact.  The adapter never inspects it. -/
inductive Artifact where
  | model (id : Nat)
deriving DecidableEq, Repr

/-- Errors surfaced by the external serialization routines, the filesystem
backend, or version resolution.  The adapter introduces none of its own. -/
inductive Err where
  | versionNotFound
  | extFailure (msg : String)
deriving DecidableEq, Repr

/-- `kedro.io.core.Version`: an optional pair of load / save identifiers. -/
structure VersionT where
  load : Option String
  save : Option String
deriving DecidableEq, Repr

/-- The observable state of the outside world: which paths are directories on
the local filesystem, which exist on the remote backend, which version
identifiers exist under a base path (oldest first), and the identifier the
timestamp generator would produce for a fresh save. -/
structure World where
  localDirs : List String
  remoteDirs : List String
  versionsOf : String → List String
  genVersion : String

/-- `Path(p).is_dir()` on the local filesystem. -/
def World.localIsDir (w : World) (p : String) : Bool :=
  w.localDirs.contains p

/-- An `fsspec` filesystem handle: the protocol it was built for plus the
keyword arguments (credentials and fs args) it was built with. -/
structure FSHandle where
  fsProtocol : String
  fsKwargs : PyDict
deriving DecidableEq, Repr

/-- `fsspec.filesystem(protocol, **kwargs)`. -/
def fsspecFilesystem (protocol : String) (kwargs : PyDict) : FSHandle :=
  { fsProtocol := protocol, fsKwargs := kwargs }

/-- Split a character list at the first occurrence of the protocol marker
`://`, returning the parts before and after it, or `none` when absent. -/
def splitAtMarker : List Char → Option (List Char × List Char)
  | [] => Option.none
  | ':' :: '/' :: '/' :: rest => Option.some ([], rest)
  | c :: rest =>
    match splitAtMarker rest with
    | Option.none => Option.none
    | Option.some (p, q) => Option.some (c :: p, q)

/-- Modelled from the spec: `kedro.io.core.get_protocol_and_path` is not under
`src/`; per the spec the filepath optionally carries a protocol marker
(`scheme://rest`), the protocol is parsed out, and the remainder is the
protocol-stripped path; without a marker the `file` protocol is used. -/
def get_protocol_and_path (filepath : String) : String × String :=
  match splitAtMarker filepath.toList with
  | Option.none => ("file", filepath)
  | Option.some (p, q) => (String.mk p, String.mk q)

/-- `TensorFlowModelDataset`: the unversioned adapter. -/
structure TFModelDataset where
  filepath : String
  data : Option Artifact
  load_args : PyDict
  save_args : PyDict
deriving DecidableEq, Repr

def TFModelDataset.DEFAULT_LOAD_ARGS : PyDict :=
  [("custom_objects", PyVal.vNone), ("compile", PyVal.vBool true)]

def TFModelDataset.DEFAULT_SAVE_ARGS : PyDict :=
  [("overwrite", PyVal.vBool true),
   ("include_optimizer", PyVal.vBool true),
   ("save_format", PyVal.vStr "tf"),
   ("signatures", PyVal.vNone),
   ("options", PyVal.vNone)]

/-- `TensorFlowModelDataset.__init__`, value level: `deepcopy` of an
immutable value is the value itself; `update` is applied only when the
argument is not `None`. -/
def TFModelDataset.init (filepath : String)
    (load_args save_args : Option PyDict) : TFModelDataset :=
  { filepath := filepath
    data := Option.none
    load_args :=
      match load_args with
      | Option.none => TFModelDataset.DEFAULT_LOAD_ARGS
      | Option.some la => dictUpdate TFModelDataset.DEFAULT_LOAD_ARGS la
    save_args :=
      match save_args with
      | Option.none => TFModelDataset.DEFAULT_SAVE_ARGS
      | Option.some sa => dictUpdate TFModelDataset.DEFAULT_SAVE_ARGS sa }

/-- `TensorFlowModelDataset._load`: `tf.keras.models.load_model(self._filepath,
**self._load_args)` with the external routine passed as a parameter. -/
def TFModelDataset.loadD (ds : TFModelDataset)
    (extLoad : String → PyDict → Except Err Artifact) : Except Err Artifact :=
  extLoad ds.filepath ds.load_args

/-- `TensorFlowModelDataset._save`: `tf.keras.models.save_model(data,
self._filepath, **self._save_args)`. -/
def TFModelDataset.saveD (ds : TFModelDataset) (dat : Artifact)
    (extSave : Artifact → String → PyDict → Except Err Unit) : Except Err Unit :=
  extSave dat ds.filepath ds.save_args

/-- `TensorFlowModelDataset._exists`: `Path(self._filepath).is_dir()`. -/
def TFModelDataset.existsD (ds : TFModelDataset) (w : World) : Bool :=
  w.localIsDir ds.filepath

/-- A value of the mapping returned by `_describe`. -/
inductive MetaVal where
  | mstr (s : String)
  | mdict (d : PyDict)
  | mversion (v : Option VersionT)
deriving DecidableEq, Repr

/-- `TensorFlowModelDataset._describe`: `dict(filepath=..., load_args=...,
save_args=...)`. -/
def TFModelDataset.describeD (ds : TFModelDataset) : List (String × MetaVal) :=
  [("filepath", MetaVal.mstr ds.filepath),
   ("load_args", MetaVal.mdict ds.load_args),
   ("save_args", MetaVal.mdict ds.save_args)]

/-- `TensorFlowModelVersionedDataset`. -/
structure TFModelVersionedDataset where
  protocol : String
  fs : FSHandle
  /-- `self._filepath`, set by `super().__init__(PurePath(filepath), ...)`:
  the FULL constructor filepath (`PurePath` modelled as the identity on the
  path string). -/
  filepathF : String
  versionF : Option VersionT
  data : Option Artifact
  load_args : PyDict
  save_args : PyDict
deriving DecidableEq, Repr

def TFModelVersionedDataset.DEFAULT_LOAD_ARGS : PyDict :=
  [("custom_objects", PyVal.vNone), ("compile", PyVal.vBool true)]

def TFModelVersionedDataset.DEFAULT_SAVE_ARGS : PyDict :=
  [("overwrite", PyVal.vBool true),
   ("include_optimizer", PyVal.vBool true),
   ("save_format", PyVal.vStr "tf"),
   ("signatures", PyVal.vNone),
   ("options", PyVal.vNone)]

/-- `TensorFlowModelVersionedDataset.__init__`, value level, statement by
statement: deep-copies of `fs_args` / `credentials` defaulting to `{}`;
`protocol, path = get_protocol_and_path(filepath, version)`; the fs handle
built from the protocol with credentials then fs args as keyword arguments;
`super().__init__(PurePath(filepath), version, ...)` storing the full
filepath; then the same default-overlay handling as the unversioned class. -/
def TFModelVersionedDataset.init (filepath : String)
    (load_args save_args : Option PyDict) (version : Option VersionT)
    (credentials fs_args : Option PyDict) : TFModelVersionedDataset :=
  let fsArgsLocal : PyDict := fs_args.getD []
  let credsLocal : PyDict := credentials.getD []
  let pp := get_protocol_and_path filepath
  { protocol := pp.1
    fs := fsspecFilesystem pp.1 (dictUpdate credsLocal fsArgsLocal)
    filepathF := filepath
    versionF := version
    data := Option.none
    load_args :=
      match load_args with
      | Option.none => TFModelVersionedDataset.DEFAULT_LOAD_ARGS
      | Option.some la => dictUpdate TFModelVersionedDataset.DEFAULT_LOAD_ARGS la
    save_args :=
      match save_args with
      | Option.none => TFModelVersionedDataset.DEFAULT_SAVE_ARGS
      | Option.some sa => dictUpdate TFModelVersionedDataset.DEFAULT_SAVE_ARGS sa }

/-- The last path component of `p` (`PurePath(p).name`). -/
def baseName (p : String) : String :=
  String.mk ((p.toList.reverse.takeWhile (fun c => c != '/')).reverse)

/-- The versioned path for identifier `ver` under base path `base`:
one path segment per version identifier beneath the base path, then the
base name again (`base / ver / name`). -/
def versionedPathOf (base ver : String) : String :=
  base ++ "/" ++ ver ++ "/" ++ baseName base

/-- Modelled from the spec: `AbstractVersionedDataSet._get_load_path` is not
under `src/`; per the spec, with no version descriptor the base path itself is
used; with an explicit load identifier, the versioned path for it; with no
load identifier, the most recent existing version under the base path,
failing when none exists. -/
def TFModelVersionedDataset.getLoadPath (ds : TFModelVersionedDataset)
    (w : World) : Except Err String :=
  match ds.versionF with
  | Option.none => Except.ok ds.filepathF
  | Option.some v =>
    match v.load with
    | Option.some lv => Except.ok (versionedPathOf ds.filepathF lv)
    | Option.none =>
      match (w.versionsOf ds.filepathF).getLast? with
      | Option.some lv => Except.ok (versionedPathOf ds.filepathF lv)
      | Option.none => Except.error Err.versionNotFound

/-- Modelled from the spec: `AbstractVersionedDataSet._get_save_path` is not
under `src/`; per the spec, with no version descriptor the base path itself is
used; with an explicit save identifier, the versioned path for it; with none,
a freshly generated (timestamp) identifier. -/
def TFModelVersionedDataset.getSavePath (ds : TFModelVersionedDataset)
    (w : World) : String :=
  match ds.versionF with
  | Option.none => ds.filepathF
  | Option.some v =>
    match v.save with
    | Option.some sv => versionedPathOf ds.filepathF sv
    | Option.none => versionedPathOf ds.filepathF w.genVersion

/-- `TensorFlowModelVersionedDataset._load`: `load_path =
Path(self._get_load_path())` then `tf.keras.models.load_model(str(load_path),
**self._load_args)`; a version-resolution failure propagates. -/
def TFModelVersionedDataset.loadV (ds : TFModelVersionedDataset) (w : World)
    (extLoad : String → PyDict → Except Err Artifact) : Except Err Artifact :=
  match ds.getLoadPath w with
  | Except.error e => Except.error e
  | Except.ok p => extLoad p ds.load_args

/-- `TensorFlowModelVersionedDataset._save`: `save_path =
Path(self._get_save_path())` then `tf.keras.models.save_model(data,
str(save_path), **self._save_args)`. -/
def TFModelVersionedDataset.saveV (ds : TFModelVersionedDataset) (w : World)
    (dat : Artifact)
    (extSave : Artifact → String → PyDict → Except Err Unit) : Except Err Unit :=
  extSave dat (ds.getSavePath w) ds.save_args

/-- `TensorFlowModelVersionedDataset._exists`: `path =
Path(self._get_load_path())` then `path.is_dir()`. -/
def TFModelVersionedDataset.existsV (ds : TFModelVersionedDataset)
    (w : World) : Except Err Bool :=
  match ds.getLoadPath w with
  | Except.error e => Except.error e
  | Except.ok p => Except.ok (w.localIsDir p)

/-- `TensorFlowModelVersionedDataset._describe`: `dict(filepath=str(...),
load_args=..., save_args=..., version=...)`. -/
def TFModelVersionedDataset.describeV (ds : TFModelVersionedDataset) :
    List (String × MetaVal) :=
  [("filepath", MetaVal.mstr ds.filepathF),
   ("load_args", MetaVal.mdict ds.load_args),
   ("save_args", MetaVal.mdict ds.save_args),
   ("version", MetaVal.mversion ds.versionF)]

/-!
### Heap model of construction

Python dicts are mutable reference cells; `DEFAULT_LOAD_ARGS` /
`DEFAULT_SAVE_ARGS` are class-level shared dicts and callers pass dicts by
reference.  To state the frame claims about `__init__` (no mutation of the
shared defaults, no mutation of caller-supplied mappings) we run the
constructor statements on an explicit heap of dict cells addressed by `Nat`
references.
-/

/-- A heap of dict cells; the reference is the index. -/
abbrev Heap := List PyDict

/-- Read the cell at reference `r` (unallocated references read `[]`). -/
def hget : Heap → Nat → PyDict
  | [], _ => []
  | d :: _, 0 => d
  | _ :: rest, n + 1 => hget rest n

/-- Overwrite the cell at reference `r` (no-op when unallocated). -/
def hset : Heap → Nat → PyDict → Heap
  | [], _, _ => []
  | _ :: rest, 0, d => d :: rest
  | c :: rest, n + 1, d => c :: hset rest n d

/-- Allocate a fresh cell holding `d`; returns the new heap and reference. -/
def halloc (h : Heap) (d : PyDict) : Heap × Nat :=
  (h ++ [d], h.length)

/-- `copy.deepcopy(r)`: allocate a fresh cell with the contents of `r`. -/
def heapDeepcopy (h : Heap) (r : Nat) : Heap × Nat :=
  halloc h (hget h r)

/-- `copy.deepcopy(arg) or {}` for an optional dict argument (`None` gives a
fresh `{}`); the source cell is never written. -/
def heapCopyOrEmpty (h : Heap) (arg : Option Nat) : Heap × Nat :=
  match arg with
  | Option.some r => heapDeepcopy h r
  | Option.none => halloc h []

/-- The default-overlay statements of `__init__` on the heap:
`self._x = copy.deepcopy(DEFAULT_X_ARGS)` then
`if x_args is not None: self._x.update(x_args)`.
Returns the heap and the reference held by `self._x`. -/
def heapCopyThenUpdate (h : Heap) (defRef : Nat) (arg : Option Nat) :
    Heap × Nat :=
  let p := heapDeepcopy h defRef
  match arg with
  | Option.none => p
  | Option.some r => (hset p.1 p.2 (dictUpdate (hget p.1 p.2) (hget p.1 r)), p.2)

/-- `TensorFlowModelDataset.__init__` on the heap: the two default-overlay
blocks, given the references of the class-level default dicts and of the
caller's optional argument dicts.  Returns the final heap and the references
stored in `self._load_args` / `self._save_args`. -/
def tfInitHeap (h : Heap) (defLoadRef defSaveRef : Nat)
    (load_args save_args : Option Nat) : Heap × Nat × Nat :=
  let pl := heapCopyThenUpdate h defLoadRef load_args
  let ps := heapCopyThenUpdate pl.1 defSaveRef save_args
  (ps.1, pl.2, ps.2)

/-- `TensorFlowModelVersionedDataset.__init__` on the heap: first the
deep-copies `_fs_args = copy.deepcopy(fs_args) or {}` and `_credentials =
copy.deepcopy(credentials) or {}`, then the same two default-overlay blocks.
Returns the final heap. -/
def tfvInitHeap (h : Heap) (defLoadRef defSaveRef : Nat)
    (load_args save_args credentials fs_args : Option Nat) : Heap :=
  let pf := heapCopyOrEmpty h fs_args
  let pc := heapCopyOrEmpty pf.1 credentials
  (tfInitHeap pc.1 defLoadRef defSaveRef load_args save_args).1

/-- One catalog-level construction request: either adapter, with the
references of its optional dict arguments. -/
inductive InitReq where
  | unversioned (load_args save_args : Option Nat)
  | versioned (load_args save_args credentials fs_args : Option Nat)

/-- Run a sequence of constructions of either adapter against the heap. -/
def runInits (defLoadRef defSaveRef : Nat) (h : Heap) :
    List InitReq → Heap
  | [] => h
  | InitReq.unversioned la sa :: rest =>
      runInits defLoadRef defSaveRef
        (tfInitHeap h defLoadRef defSaveRef la sa).1 rest
  | InitReq.versioned la sa cr fa :: rest =>
      runInits defLoadRef defSaveRef
        (tfvInitHeap h defLoadRef defSaveRef la sa cr fa) rest

/-!
### Operation sequences

For the statelessness claim: each of `_load`, `_save`, `_exists`, `_describe`
contains no assignment to any instance field, so the embedding threads the
instance through each call unchanged and lets `save` act on the world through
the external routine.
-/

/-- One adapter operation. -/
inductive OpD where
  | opLoad
  | opSave (m : Artifact)
  | opExistsQ
  | opDescribe

/-- One unversioned-adapter call: `_save` writes through the external
routine (a world transformer); no method assigns an instance field. -/
def TFModelDataset.stepD (extS : Artifact → String → PyDict → World → World)
    (p : TFModelDataset × World) (op : OpD) : TFModelDataset × World :=
  match op with
  | OpD.opSave m => (p.1, extS m p.1.filepath p.1.save_args p.2)
  | _ => (p.1, p.2)

/-- One versioned-adapter call: `_save` resolves the save path, then writes
through the external routine; no method assigns an instance field. -/
def TFModelVersionedDataset.stepV
    (extS : Artifact → String → PyDict → World → World)
    (p : TFModelVersionedDataset × World) (op : OpD) :
    TFModelVersionedDataset × World :=
  match op with
  | OpD.opSave m =>
      (p.1, extS m (p.1.getSavePath p.2) p.1.save_args p.2)
  | _ => (p.1, p.2)

/-!
### Lemmas about the dict model
-/

theorem dget_setKey (d : PyDict) (k k' : String) (v : PyVal) :
    dget (setKey d k v) k' = if k = k' then Option.some v else dget d k' := by
  induction d with
  | nil => simp [setKey, dget]
  | cons p rest ih =>
    obtain ⟨k'', v''⟩ := p
    by_cases h1 : k'' = k
    · subst h1
      by_cases h2 : k'' = k' <;> simp [setKey, dget, h2]
    · simp only [setKey, if_neg h1]
      by_cases h2 : k'' = k'
      · have h3 : ¬ k = k' := fun he => h1 (h2.trans he.symm)
        simp [dget, h2, h3]
      · rw [dget, if_neg h2, ih]
        by_cases h4 : k = k'
        · rw [if_pos h4, if_pos h4]
        · rw [if_neg h4, if_neg h4, dget, if_neg h2]

theorem dictUpdate_nil (d : PyDict) : dictUpdate d [] = d := rfl

theorem dictUpdate_cons (d : PyDict) (k : String) (v : PyVal) (u : PyDict) :
    dictUpdate d ((k, v) :: u) = dictUpdate (setKey d k v) u := rfl

theorem dget_eq_none_of_not_mem (u : PyDict) (k : String)
    (h : k ∉ dkeys u) : dget u k = Option.none := by
  induction u with
  | nil => rfl
  | cons p rest ih =>
    obtain ⟨k', v'⟩ := p
    simp only [dkeys, List.map_cons, List.mem_cons, not_or] at h
    rw [dget, if_neg (fun he => h.1 he.symm)]
    exact ih h.2

theorem dget_dictUpdate_of_none (d u : PyDict) (k : String)
    (h : dget u k = Option.none) :
    dget (dictUpdate d u) k = dget d k := by
  induction u generalizing d with
  | nil => rfl
  | cons p rest ih =>
    obtain ⟨k', v'⟩ := p
    have hk : ¬ k' = k := by
      intro he
      rw [dget, if_pos he] at h
      exact Option.noConfusion h
    rw [dget, if_neg hk] at h
    rw [dictUpdate_cons, ih _ h, dget_setKey, if_neg (fun he => hk he)]

theorem dget_dictUpdate_of_some (d u : PyDict) (k : String) (v : PyVal)
    (hu : (dkeys u).Nodup) (h : dget u k = Option.some v) :
    dget (dictUpdate d u) k = Option.some v := by
  induction u generalizing d with
  | nil => exact Option.noConfusion h
  | cons p rest ih =>
    obtain ⟨k', v'⟩ := p
    simp only [dkeys, List.map_cons, List.nodup_cons] at hu
    rw [dictUpdate_cons]
    by_cases hk : k' = k
    · subst hk
      rw [dget, if_pos rfl] at h
      have hnone : dget rest k' = Option.none :=
        dget_eq_none_of_not_mem _ _ hu.1
      rw [dget_dictUpdate_of_none _ _ _ hnone, dget_setKey, if_pos rfl, h]
    · rw [dget, if_neg hk] at h
      exact ih _ hu.2 h

/-!
### Lemmas about the heap model
-/

theorem hget_append (h l : Heap) (r : Nat) (hr : r < h.length) :
    hget (h ++ l) r = hget h r := by
  induction h generalizing r with
  | nil => exact absurd hr (Nat.not_lt_zero r)
  | cons c rest ih =>
    cases r with
    | zero => rfl
    | succ n => exact ih n (Nat.lt_of_succ_lt_succ hr)

theorem hget_hset_ne (h : Heap) (r r' : Nat) (d : PyDict) (hne : r ≠ r') :
    hget (hset h r' d) r = hget h r := by
  induction h generalizing r r' with
  | nil => rfl
  | cons c rest ih =>
    cases r' with
    | zero =>
      cases r with
      | zero => exact absurd rfl hne
      | succ n => rfl
    | succ n' =>
      cases r with
      | zero => rfl
      | succ n => exact ih n n' (fun he => hne (by rw [he]))

theorem length_hset (h : Heap) (r : Nat) (d : PyDict) :
    (hset h r d).length = h.length := by
  induction h generalizing r with
  | nil => rfl
  | cons c rest ih =>
    cases r with
    | zero => rfl
    | succ n => simp [hset, ih]

theorem heapCopyOrEmpty_spec (h : Heap) (arg : Option Nat) (r : Nat)
    (hr : r < h.length) :
    hget (heapCopyOrEmpty h arg).1 r = hget h r ∧
      h.length < (heapCopyOrEmpty h arg).1.length := by
  cases arg with
  | none =>
    refine ⟨hget_append h _ r hr, ?_⟩
    simp [heapCopyOrEmpty, halloc]
  | some a =>
    refine ⟨hget_append h _ r hr, ?_⟩
    simp [heapCopyOrEmpty, heapDeepcopy, halloc]

theorem heapCopyThenUpdate_spec (h : Heap) (defRef : Nat) (arg : Option Nat)
    (r : Nat) (hr : r < h.length) :
    hget (heapCopyThenUpdate h defRef arg).1 r = hget h r ∧
      h.length < (heapCopyThenUpdate h defRef arg).1.length := by
  cases arg with
  | none =>
    refine ⟨hget_append h _ r hr, ?_⟩
    simp [heapCopyThenUpdate, heapDeepcopy, halloc]
  | some a =>
    constructor
    · show hget (hset (h ++ [hget h defRef]) h.length _) r = hget h r
      rw [hget_hset_ne _ _ _ _ (Nat.ne_of_lt hr)]
      exact hget_append h _ r hr
    · show h.length < (hset (h ++ [hget h defRef]) h.length _).length
      rw [length_hset]
      simp

theorem tfInitHeap_spec (h : Heap) (dlr dsr : Nat)
    (load_args save_args : Option Nat) (r : Nat) (hr : r < h.length) :
    hget (tfInitHeap h dlr dsr load_args save_args).1 r = hget h r ∧
      h.length < (tfInitHeap h dlr dsr load_args save_args).1.length := by
  have h1 := heapCopyThenUpdate_spec h dlr load_args r hr
  have h2 := heapCopyThenUpdate_spec (heapCopyThenUpdate h dlr load_args).1
    dsr save_args r (hr.trans h1.2)
  exact ⟨h2.1.trans h1.1, h1.2.trans h2.2⟩

theorem tfvInitHeap_spec (h : Heap) (dlr dsr : Nat)
    (load_args save_args credentials fs_args : Option Nat) (r : Nat)
    (hr : r < h.length) :
    hget (tfvInitHeap h dlr dsr load_args save_args credentials fs_args) r =
        hget h r ∧
      h.length <
        (tfvInitHeap h dlr dsr load_args save_args credentials fs_args).length := by
  have h1 := heapCopyOrEmpty_spec h fs_args r hr
  have h2 := heapCopyOrEmpty_spec (heapCopyOrEmpty h fs_args).1 credentials r
    (hr.trans h1.2)
  have h3 := tfInitHeap_spec (heapCopyOrEmpty (heapCopyOrEmpty h fs_args).1 credentials).1
    dlr dsr load_args save_args r ((hr.trans h1.2).trans h2.2)
  exact ⟨(h3.1.trans h2.1).trans h1.1, h1.2.trans (h2.2.trans h3.2)⟩

theorem runInits_preserves (dlr dsr : Nat) (reqs : List InitReq) (h : Heap)
    (r : Nat) (hr : r < h.length) :
    hget (runInits dlr dsr h reqs) r = hget h r ∧
      h.length ≤ (runInits dlr dsr h reqs).length := by
  induction reqs generalizing h with
  | nil => exact ⟨rfl, Nat.le_refl _⟩
  | cons req rest ih =>
    cases req with
    | unversioned la sa =>
      have hs := tfInitHeap_spec h dlr dsr la sa r hr
      have ih' := ih _ (hr.trans hs.2)
      exact ⟨ih'.1.trans hs.1, Nat.le_trans (Nat.le_of_lt hs.2) ih'.2⟩
    | versioned la sa cr fa =>
      have hs := tfvInitHeap_spec h dlr dsr la sa cr fa r hr
      have ih' := ih _ (hr.trans hs.2)
      exact ⟨ih'.1.trans hs.1, Nat.le_trans (Nat.le_of_lt hs.2) ih'.2⟩

/-!
### Claim theorems
-/

/-- C1: for every user-supplied `load_args` / `save_args` mapping, the
effective options mapping built by `__init__` equals the class defaults with
the supplied keys overridden: supplied keys take the supplied value (keys
absent from the defaults included), keys not supplied keep their default
value, and with no supplied mapping the effective options are exactly the
defaults; for both `TensorFlowModelDataset` and
`TensorFlowModelVersionedDataset`. -/
theorem effective_options_are_defaults_overridden (fp : String) (la sa : PyDict)
    (version : Option VersionT) (credentials fs_args : Option PyDict)
    (hla : (dkeys la).Nodup) (hsa : (dkeys sa).Nodup) :
    (∀ k v, dget la k = Option.some v →
      dget (TFModelDataset.init fp (Option.some la) (Option.some sa)).load_args k
        = Option.some v) ∧
    (∀ k, dget la k = Option.none →
      dget (TFModelDataset.init fp (Option.some la) (Option.some sa)).load_args k
        = dget TFModelDataset.DEFAULT_LOAD_ARGS k) ∧
    (∀ k v, dget sa k = Option.some v →
      dget (TFModelDataset.init fp (Option.some la) (Option.some sa)).save_args k
        = Option.some v) ∧
    (∀ k, dget sa k = Option.none →
      dget (TFModelDataset.init fp (Option.some la) (Option.some sa)).save_args k
        = dget TFModelDataset.DEFAULT_SAVE_ARGS k) ∧
    (TFModelDataset.init fp Option.none Option.none).load_args
        = TFModelDataset.DEFAULT_LOAD_ARGS ∧
    (TFModelDataset.init fp Option.none Option.none).save_args
        = TFModelDataset.DEFAULT_SAVE_ARGS ∧
    (∀ k v, dget la k = Option.some v →
      dget (TFModelVersionedDataset.init fp (Option.some la) (Option.some sa)
          version credentials fs_args).load_args k = Option.some v) ∧
    (∀ k, dget la k = Option.none →
      dget (TFModelVersionedDataset.init fp (Option.some la) (Option.some sa)
          version credentials fs_args).load_args k
        = dget TFModelVersionedDataset.DEFAULT_LOAD_ARGS k) ∧
    (∀ k v, dget sa k = Option.some v →
      dget (TFModelVersionedDataset.init fp (Option.some la) (Option.some sa)
          version credentials fs_args).save_args k = Option.some v) ∧
    (∀ k, dget sa k = Option.none →
      dget (TFModelVersionedDataset.init fp (Option.some la) (Option.some sa)
          version credentials fs_args).save_args k
        = dget TFModelVersionedDataset.DEFAULT_SAVE_ARGS k) ∧
    (TFModelVersionedDataset.init fp Option.none Option.none version credentials
        fs_args).load_args = TFModelVersionedDataset.DEFAULT_LOAD_ARGS ∧
    (TFModelVersionedDataset.init fp Option.none Option.none version credentials
        fs_args).save_args = TFModelVersionedDataset.DEFAULT_SAVE_ARGS := by
  refine ⟨fun k v h => ?_, fun k h => ?_, fun k v h => ?_, fun k h => ?_, rfl,
    rfl, fun k v h => ?_, fun k h => ?_, fun k v h => ?_, fun k h => ?_, rfl,
    rfl⟩
  · exact dget_dictUpdate_of_some _ _ _ _ hla h
  · exact dget_dictUpdate_of_none _ _ _ h
  · exact dget_dictUpdate_of_some _ _ _ _ hsa h
  · exact dget_dictUpdate_of_none _ _ _ h
  · exact dget_dictUpdate_of_some _ _ _ _ hla h
  · exact dget_dictUpdate_of_none _ _ _ h
  · exact dget_dictUpdate_of_some _ _ _ _ hsa h
  · exact dget_dictUpdate_of_none _ _ _ h

/-- Witness for the option-merging theorem: a supplied `load_args` that
overrides a default key and adds a new one. -/
theorem effective_options_witness :
    ((dkeys [("compile", PyVal.vBool false), ("extra_key", PyVal.vInt 5)]).Nodup ∧
      (dkeys [("save_format", PyVal.vStr "h5")]).Nodup) ∧
    dget (TFModelDataset.init "data/model"
        (Option.some [("compile", PyVal.vBool false), ("extra_key", PyVal.vInt 5)])
        (Option.some [("save_format", PyVal.vStr "h5")])).load_args "compile"
      = Option.some (PyVal.vBool false) :=
  ⟨⟨by decide, by decide⟩,
    (effective_options_are_defaults_overridden "data/model"
      [("compile", PyVal.vBool false), ("extra_key", PyVal.vInt 5)]
      [("save_format", PyVal.vStr "h5")] Option.none Option.none Option.none
      (by decide) (by decide)).1 "compile" (PyVal.vBool false) (by decide)⟩

/-- C2: after any number of constructions of either adapter, with arbitrary
`load_args` / `save_args` (and `credentials` / `fs_args`) argument dicts —
including arguments aliasing any pre-existing cell — the heap cells holding
the class-level `DEFAULT_LOAD_ARGS` / `DEFAULT_SAVE_ARGS` dicts are
unchanged: each construction deep-copies the defaults before overlaying, so
no mutation leaks into the shared defaults. -/
theorem defaults_unchanged_after_inits (h : Heap) (dlr dsr : Nat)
    (reqs : List InitReq) (hdl : dlr < h.length) (hds : dsr < h.length) :
    hget (runInits dlr dsr h reqs) dlr = hget h dlr ∧
    hget (runInits dlr dsr h reqs) dsr = hget h dsr :=
  ⟨(runInits_preserves dlr dsr reqs h dlr hdl).1,
   (runInits_preserves dlr dsr reqs h dsr hds).1⟩

/-- Witness: a heap holding the two default dicts and one user dict, hit with
one unversioned and one versioned construction that both pass the user dict. -/
theorem defaults_unchanged_witness :
    ((0 : Nat) < ([TFModelDataset.DEFAULT_LOAD_ARGS,
        TFModelDataset.DEFAULT_SAVE_ARGS,
        [("compile", PyVal.vBool false)]] : Heap).length ∧
      (1 : Nat) < ([TFModelDataset.DEFAULT_LOAD_ARGS,
        TFModelDataset.DEFAULT_SAVE_ARGS,
        [("compile", PyVal.vBool false)]] : Heap).length) ∧
    (hget (runInits 0 1 [TFModelDataset.DEFAULT_LOAD_ARGS,
        TFModelDataset.DEFAULT_SAVE_ARGS, [("compile", PyVal.vBool false)]]
        [InitReq.unversioned (Option.some 2) (Option.some 2),
         InitReq.versioned (Option.some 2) Option.none Option.none
           (Option.some 2)]) 0
      = hget [TFModelDataset.DEFAULT_LOAD_ARGS,
          TFModelDataset.DEFAULT_SAVE_ARGS, [("compile", PyVal.vBool false)]] 0 ∧
     hget (runInits 0 1 [TFModelDataset.DEFAULT_LOAD_ARGS,
        TFModelDataset.DEFAULT_SAVE_ARGS, [("compile", PyVal.vBool false)]]
        [InitReq.unversioned (Option.some 2) (Option.some 2),
         InitReq.versioned (Option.some 2) Option.none Option.none
           (Option.some 2)]) 1
      = hget [TFModelDataset.DEFAULT_LOAD_ARGS,
          TFModelDataset.DEFAULT_SAVE_ARGS, [("compile", PyVal.vBool false)]] 1) :=
  ⟨⟨by decide, by decide⟩,
    defaults_unchanged_after_inits _ 0 1 _ (by decide) (by decide)⟩

/-- C4: `exists()` of the unversioned adapter returns true iff the stored
filepath is an existing directory of the local filesystem, and its result
depends only on the local filesystem — two worlds with the same local
directories give the same answer whatever their remote backend holds,
regardless of any protocol marker in the filepath. -/
theorem unversioned_exists_local_dir_only (ds : TFModelDataset) (w w' : World)
    (hl : w.localDirs = w'.localDirs) :
    (ds.existsD w = true ↔ ds.filepath ∈ w.localDirs) ∧
    ds.existsD w = ds.existsD w' := by
  constructor
  · simp [TFModelDataset.existsD, World.localIsDir]
  · simp [TFModelDataset.existsD, World.localIsDir, hl]

/-- Witness: an `s3://` filepath checked against the local filesystem only:
the two worlds differ in the remote backend yet `exists` agrees. -/
theorem unversioned_exists_witness :
    (({ localDirs := ["s3://bucket/model"], remoteDirs := [],
        versionsOf := fun _ => [], genVersion := "v1" } : World).localDirs
      = ({ localDirs := ["s3://bucket/model"],
           remoteDirs := ["s3://bucket/model", "s3://bucket/other"],
           versionsOf := fun _ => ["v0"], genVersion := "v2" } : World).localDirs) ∧
    (((TFModelDataset.init "s3://bucket/model" Option.none
        Option.none).existsD
        { localDirs := ["s3://bucket/model"], remoteDirs := [],
          versionsOf := fun _ => [], genVersion := "v1" } = true ↔
      (TFModelDataset.init "s3://bucket/model" Option.none
        Option.none).filepath ∈ ["s3://bucket/model"]) ∧
     (TFModelDataset.init "s3://bucket/model" Option.none Option.none).existsD
        { localDirs := ["s3://bucket/model"], remoteDirs := [],
          versionsOf := fun _ => [], genVersion := "v1" }
      = (TFModelDataset.init "s3://bucket/model" Option.none
          Option.none).existsD
        { localDirs := ["s3://bucket/model"],
          remoteDirs := ["s3://bucket/model", "s3://bucket/other"],
          versionsOf := fun _ => ["v0"], genVersion := "v2" }) :=
  ⟨rfl, unversioned_exists_local_dir_only _ _ _ rfl⟩

/-- C7: `describe()` returns only path / options / version metadata and never
the model artifact: exactly the keys `filepath`, `load_args`, `save_args` for
the unversioned adapter, additionally `version` (filepath stringified) for
the versioned one, the options being the effective merged ones; the result is
unaffected by any stored artifact. -/
theorem describe_metadata_only (fp : String) (la sa : Option PyDict)
    (version : Option VersionT) (credentials fs_args : Option PyDict) :
    (TFModelDataset.init fp la sa).describeD =
      [("filepath", MetaVal.mstr fp),
       ("load_args", MetaVal.mdict (TFModelDataset.init fp la sa).load_args),
       ("save_args", MetaVal.mdict (TFModelDataset.init fp la sa).save_args)] ∧
    ((TFModelDataset.init fp la sa).describeD).map Prod.fst
      = ["filepath", "load_args", "save_args"] ∧
    (TFModelVersionedDataset.init fp la sa version credentials
        fs_args).describeV =
      [("filepath", MetaVal.mstr fp),
       ("load_args", MetaVal.mdict (TFModelVersionedDataset.init fp la sa
          version credentials fs_args).load_args),
       ("save_args", MetaVal.mdict (TFModelVersionedDataset.init fp la sa
          version credentials fs_args).save_args),
       ("version", MetaVal.mversion version)] ∧
    ((TFModelVersionedDataset.init fp la sa version credentials
        fs_args).describeV).map Prod.fst
      = ["filepath", "load_args", "save_args", "version"] ∧
    (∀ ds : TFModelDataset, ∀ a : Artifact,
      TFModelDataset.describeD { ds with data := Option.some a }
        = ds.describeD) ∧
    (∀ ds : TFModelVersionedDataset, ∀ a : Artifact,
      TFModelVersionedDataset.describeV { ds with data := Option.some a }
        = ds.describeV) :=
  ⟨rfl, rfl, rfl, rfl, fun _ _ => rfl, fun _ _ => rfl⟩

theorem stepD_preserves_instance
    (extS : Artifact → String → PyDict → World → World)
    (p : TFModelDataset × World) (op : OpD) :
    (TFModelDataset.stepD extS p op).1 = p.1 := by
  cases op <;> rfl

theorem stepV_preserves_instance
    (extS : Artifact → String → PyDict → World → World)
    (p : TFModelVersionedDataset × World) (op : OpD) :
    (TFModelVersionedDataset.stepV extS p op).1 = p.1 := by
  cases op <;> rfl

theorem foldl_stepD_preserves
    (extS : Artifact → String → PyDict → World → World) (ops : List OpD) :
    ∀ p : TFModelDataset × World,
      (ops.foldl (TFModelDataset.stepD extS) p).1 = p.1 := by
  induction ops with
  | nil => intro p; rfl
  | cons op rest ih =>
    intro p
    rw [List.foldl_cons, ih, stepD_preserves_instance]

theorem foldl_stepV_preserves
    (extS : Artifact → String → PyDict → World → World) (ops : List OpD) :
    ∀ p : TFModelVersionedDataset × World,
      (ops.foldl (TFModelVersionedDataset.stepV extS) p).1 = p.1 := by
  induction ops with
  | nil => intro p; rfl
  | cons op rest ih =>
    intro p
    rw [List.foldl_cons, ih, stepV_preserves_instance]

/-- C9: adapter instances are stateless across calls — any sequence of
`load` / `save` / `exists` / `describe` operations leaves the instance
unchanged: the effective options mappings, the filepath and, for the
versioned variant, the filesystem handle, base path and version descriptor
are all exactly as constructed. -/
theorem adapters_stateless_across_calls
    (extS : Artifact → String → PyDict → World → World) (ops : List OpD)
    (ds : TFModelDataset) (vds : TFModelVersionedDataset) (w w' : World) :
    (ops.foldl (TFModelDataset.stepD extS) (ds, w)).1 = ds ∧
    (ops.foldl (TFModelVersionedDataset.stepV extS) (vds, w')).1 = vds ∧
    (ops.foldl (TFModelDataset.stepD extS) (ds, w)).1.load_args = ds.load_args ∧
    (ops.foldl (TFModelDataset.stepD extS) (ds, w)).1.save_args = ds.save_args ∧
    (ops.foldl (TFModelDataset.stepD extS) (ds, w)).1.filepath = ds.filepath ∧
    (ops.foldl (TFModelVersionedDataset.stepV extS) (vds, w')).1.fs = vds.fs ∧
    (ops.foldl (TFModelVersionedDataset.stepV extS) (vds, w')).1.filepathF
      = vds.filepathF ∧
    (ops.foldl (TFModelVersionedDataset.stepV extS) (vds, w')).1.versionF
      = vds.versionF ∧
    (ops.foldl (TFModelVersionedDataset.stepV extS) (vds, w')).1.load_args
      = vds.load_args ∧
    (ops.foldl (TFModelVersionedDataset.stepV extS) (vds, w')).1.save_args
      = vds.save_args := by
  have hd := foldl_stepD_preserves extS ops (ds, w)
  have hv := foldl_stepV_preserves extS ops (vds, w')
  exact ⟨hd, hv, by rw [hd], by rw [hd], by rw [hd], by rw [hv], by rw [hv],
    by rw [hv], by rw [hv], by rw [hv]⟩

/-- C3 (evaluation at the failing input `"s3://bucket/models"`): the protocol
`"s3"` is parsed out of the filepath and used to construct the
storage-backend handle, and `get_protocol_and_path` also yields the
protocol-stripped path `"bucket/models"` — but the constructor retains the
FULL filepath, not the stripped path, as the base path for subsequent
version/path resolution: the stripped path is computed into a local variable
and discarded, while `PurePath(filepath)` is what `super().__init__` stores,
so the versioned load path is resolved beneath the protocol-carrying base. -/
theorem versioned_retains_full_filepath :
    get_protocol_and_path "s3://bucket/models" = ("s3", "bucket/models") ∧
    (TFModelVersionedDataset.init "s3://bucket/models" Option.none Option.none
        Option.none Option.none Option.none).fs.fsProtocol = "s3" ∧
    (TFModelVersionedDataset.init "s3://bucket/models" Option.none Option.none
        Option.none Option.none Option.none).filepathF = "s3://bucket/models" ∧
    (TFModelVersionedDataset.init "s3://bucket/models" Option.none Option.none
        Option.none Option.none Option.none).filepathF
      ≠ (get_protocol_and_path "s3://bucket/models").2 ∧
    (TFModelVersionedDataset.init "s3://bucket/models" Option.none Option.none
        (Option.some { load := Option.some "2020-01-01", save := Option.none })
        Option.none Option.none).getLoadPath
        { localDirs := [], remoteDirs := [], versionsOf := fun _ => [],
          genVersion := "g" }
      = Except.ok "s3://bucket/models/2020-01-01/models" :=
  ⟨by decide, rfl, rfl, by decide, rfl⟩

/-- C5: `exists()` of the versioned adapter resolves the load path by exactly
the same version-resolution computation as `load()` — at every resolved path
`p`, `exists()` tests exactly `p` and `load()` loads exactly from `p` — and
returns true iff that resolved path is an existing local directory; when
resolution fails, both operations fail with the same error. -/
theorem versioned_exists_same_resolution (ds : TFModelVersionedDataset)
    (w : World) (extLoad : String → PyDict → Except Err Artifact) :
    (∀ p, ds.getLoadPath w = Except.ok p →
      ds.existsV w = Except.ok (w.localIsDir p) ∧
      ds.loadV w extLoad = extLoad p ds.load_args ∧
      (ds.existsV w = Except.ok true ↔ p ∈ w.localDirs)) ∧
    (∀ e, ds.getLoadPath w = Except.error e →
      ds.existsV w = Except.error e ∧ ds.loadV w extLoad = Except.error e) := by
  constructor
  · intro p hp
    refine ⟨?_, ?_, ?_⟩
    · simp [TFModelVersionedDataset.existsV, hp]
    · simp [TFModelVersionedDataset.loadV, hp]
    · simp [TFModelVersionedDataset.existsV, hp, World.localIsDir]
  · intro e he
    exact ⟨by simp [TFModelVersionedDataset.existsV, he],
      by simp [TFModelVersionedDataset.loadV, he]⟩

/-- Witness: with versions `v1, v2` on disk and no explicit load identifier,
both `exists()` and `load()` resolve to the `v2` path. -/
theorem versioned_exists_witness :
    ((TFModelVersionedDataset.init "models/net" Option.none Option.none
        (Option.some { load := Option.none, save := Option.none })
        Option.none Option.none).getLoadPath
        { localDirs := ["models/net/v2/net"], remoteDirs := [],
          versionsOf := fun _ => ["v1", "v2"], genVersion := "v3" }
      = Except.ok "models/net/v2/net") ∧
    ((TFModelVersionedDataset.init "models/net" Option.none Option.none
        (Option.some { load := Option.none, save := Option.none })
        Option.none Option.none).existsV
        { localDirs := ["models/net/v2/net"], remoteDirs := [],
          versionsOf := fun _ => ["v1", "v2"], genVersion := "v3" }
      = Except.ok (World.localIsDir
          { localDirs := ["models/net/v2/net"], remoteDirs := [],
            versionsOf := fun _ => ["v1", "v2"], genVersion := "v3" }
          "models/net/v2/net") ∧
     (TFModelVersionedDataset.init "models/net" Option.none Option.none
        (Option.some { load := Option.none, save := Option.none })
        Option.none Option.none).loadV
        { localDirs := ["models/net/v2/net"], remoteDirs := [],
          versionsOf := fun _ => ["v1", "v2"], genVersion := "v3" }
        (fun _ _ => Except.ok (Artifact.model 1))
      = (fun _ _ => Except.ok (Artifact.model 1)) "models/net/v2/net"
          (TFModelVersionedDataset.init "models/net" Option.none Option.none
            (Option.some { load := Option.none, save := Option.none })
            Option.none Option.none).load_args ∧
     ((TFModelVersionedDataset.init "models/net" Option.none Option.none
        (Option.some { load := Option.none, save := Option.none })
        Option.none Option.none).existsV
        { localDirs := ["models/net/v2/net"], remoteDirs := [],
          versionsOf := fun _ => ["v1", "v2"], genVersion := "v3" }
      = Except.ok true ↔ "models/net/v2/net" ∈
        ({ localDirs := ["models/net/v2/net"], remoteDirs := [],
           versionsOf := fun _ => ["v1", "v2"], genVersion := "v3" }
          : World).localDirs)) :=
  ⟨rfl,
    (versioned_exists_same_resolution
      (TFModelVersionedDataset.init "models/net" Option.none Option.none
        (Option.some { load := Option.none, save := Option.none })
        Option.none Option.none)
      { localDirs := ["models/net/v2/net"], remoteDirs := [],
        versionsOf := fun _ => ["v1", "v2"], genVersion := "v3" }
      (fun _ _ => Except.ok (Artifact.model 1))).1 "models/net/v2/net" rfl⟩

/-- C6: every error raised by the external serialization routines or by
version resolution propagates unmodified through `load()` / `save()` of both
adapters — no catching, retry, recovery or translation — and a failing
`load()` (e.g. on a path with no saved artifact) never yields a non-error
result. -/
theorem errors_propagate_unmodified (ds : TFModelDataset)
    (vds : TFModelVersionedDataset) (w : World)
    (extLoad : String → PyDict → Except Err Artifact)
    (extSave : Artifact → String → PyDict → Except Err Unit)
    (m : Artifact) (e : Err) :
    (extLoad ds.filepath ds.load_args = Except.error e →
      ds.loadD extLoad = Except.error e) ∧
    (extSave m ds.filepath ds.save_args = Except.error e →
      ds.saveD m extSave = Except.error e) ∧
    (∀ p, vds.getLoadPath w = Except.ok p →
      extLoad p vds.load_args = Except.error e →
      vds.loadV w extLoad = Except.error e) ∧
    (vds.getLoadPath w = Except.error e →
      vds.loadV w extLoad = Except.error e) ∧
    (extSave m (vds.getSavePath w) vds.save_args = Except.error e →
      vds.saveV w m extSave = Except.error e) ∧
    (extLoad ds.filepath ds.load_args = Except.error e →
      ∀ a, ds.loadD extLoad ≠ Except.ok a) := by
  refine ⟨fun h => h, fun h => h, fun p hp h => ?_, fun h => ?_, fun h => h,
    fun h a hc => ?_⟩
  · simp [TFModelVersionedDataset.loadV, hp, h]
  · simp [TFModelVersionedDataset.loadV, h]
  · exact Except.noConfusion (h.symm.trans hc)

/-- Witness: an external load that fails with "no artifact" at the fixed
path; the adapter surfaces exactly that error. -/
theorem errors_propagate_witness :
    ((fun (_ : String) (_ : PyDict) =>
        (Except.error (Err.extFailure "no artifact") : Except Err Artifact))
      (TFModelDataset.init "m" Option.none Option.none).filepath
      (TFModelDataset.init "m" Option.none Option.none).load_args
      = Except.error (Err.extFailure "no artifact")) ∧
    (TFModelDataset.init "m" Option.none Option.none).loadD
        (fun _ _ => Except.error (Err.extFailure "no artifact"))
      = Except.error (Err.extFailure "no artifact") :=
  ⟨rfl,
    (errors_propagate_unmodified
      (TFModelDataset.init "m" Option.none Option.none)
      (TFModelVersionedDataset.init "m" Option.none Option.none Option.none
        Option.none Option.none)
      { localDirs := [], remoteDirs := [], versionsOf := fun _ => [],
        genVersion := "g" }
      (fun _ _ => Except.error (Err.extFailure "no artifact"))
      (fun _ _ _ => Except.ok Unit.unit) (Artifact.model 0)
      (Err.extFailure "no artifact")).1 rfl⟩

/-- C8: the unversioned adapter's `save(model)` invokes the external
save-model operation with exactly the fixed constructor filepath and the
effective merged save options, returning no value on success, and `load()`
invokes the external load-model operation with exactly that filepath and the
effective merged load options, returning exactly the artifact the operation
returns. -/
theorem unversioned_delegates_exactly (fp : String) (u v : PyDict)
    (extLoad : String → PyDict → Except Err Artifact)
    (extSave : Artifact → String → PyDict → Except Err Unit)
    (m a : Artifact) :
    (TFModelDataset.init fp (Option.some u) (Option.some v)).loadD extLoad
      = extLoad fp (dictUpdate TFModelDataset.DEFAULT_LOAD_ARGS u) ∧
    (TFModelDataset.init fp Option.none Option.none).loadD extLoad
      = extLoad fp TFModelDataset.DEFAULT_LOAD_ARGS ∧
    (TFModelDataset.init fp (Option.some u) (Option.some v)).saveD m extSave
      = extSave m fp (dictUpdate TFModelDataset.DEFAULT_SAVE_ARGS v) ∧
    (TFModelDataset.init fp Option.none Option.none).saveD m extSave
      = extSave m fp TFModelDataset.DEFAULT_SAVE_ARGS ∧
    (extLoad fp (dictUpdate TFModelDataset.DEFAULT_LOAD_ARGS u) = Except.ok a →
      (TFModelDataset.init fp (Option.some u) (Option.some v)).loadD extLoad
        = Except.ok a) ∧
    (extSave m fp (dictUpdate TFModelDataset.DEFAULT_SAVE_ARGS v)
        = Except.ok Unit.unit →
      (TFModelDataset.init fp (Option.some u) (Option.some v)).saveD m extSave
        = Except.ok Unit.unit) :=
  ⟨rfl, rfl, rfl, rfl, fun h => h, fun h => h⟩

/-- Witness: an external load returning artifact 7 at the fixed path; the
adapter returns exactly artifact 7. -/
theorem unversioned_delegates_witness :
    ((fun (_ : String) (_ : PyDict) =>
        (Except.ok (Artifact.model 7) : Except Err Artifact)) "m"
      (dictUpdate TFModelDataset.DEFAULT_LOAD_ARGS [])
      = Except.ok (Artifact.model 7)) ∧
    (TFModelDataset.init "m" (Option.some []) (Option.some [])).loadD
        (fun _ _ => Except.ok (Artifact.model 7))
      = Except.ok (Artifact.model 7) :=
  ⟨rfl,
    (unversioned_delegates_exactly "m" [] []
      (fun _ _ => Except.ok (Artifact.model 7))
      (fun _ _ _ => Except.ok Unit.unit) (Artifact.model 0)
      (Artifact.model 7)).2.2.2.2.1 rfl⟩

/-- C10: construction of either adapter never mutates the caller-supplied
argument dicts: after `__init__` returns, the heap cells the caller passed as
`load_args` and `save_args` (and, for the versioned adapter, as `credentials`
and `fs_args`, which are deep-copied before use) hold exactly the pairs they
held before the call. -/
theorem constructor_args_not_mutated (h : Heap) (dlr dsr lar sar crr far : Nat)
    (hla : lar < h.length) (hsa : sar < h.length) (hcr : crr < h.length)
    (hfa : far < h.length) :
    hget (tfInitHeap h dlr dsr (Option.some lar) (Option.some sar)).1 lar
      = hget h lar ∧
    hget (tfInitHeap h dlr dsr (Option.some lar) (Option.some sar)).1 sar
      = hget h sar ∧
    hget (tfvInitHeap h dlr dsr (Option.some lar) (Option.some sar)
        (Option.some crr) (Option.some far)) lar = hget h lar ∧
    hget (tfvInitHeap h dlr dsr (Option.some lar) (Option.some sar)
        (Option.some crr) (Option.some far)) sar = hget h sar ∧
    hget (tfvInitHeap h dlr dsr (Option.some lar) (Option.some sar)
        (Option.some crr) (Option.some far)) crr = hget h crr ∧
    hget (tfvInitHeap h dlr dsr (Option.some lar) (Option.some sar)
        (Option.some crr) (Option.some far)) far = hget h far :=
  ⟨(tfInitHeap_spec h dlr dsr _ _ lar hla).1,
   (tfInitHeap_spec h dlr dsr _ _ sar hsa).1,
   (tfvInitHeap_spec h dlr dsr _ _ _ _ lar hla).1,
   (tfvInitHeap_spec h dlr dsr _ _ _ _ sar hsa).1,
   (tfvInitHeap_spec h dlr dsr _ _ _ _ crr hcr).1,
   (tfvInitHeap_spec h dlr dsr _ _ _ _ far hfa).1⟩

/-- Witness: a heap with the two defaults and four caller dicts, all passed
to both constructors; every caller cell is untouched. -/
theorem constructor_args_witness :
    ((2 : Nat) < ([TFModelDataset.DEFAULT_LOAD_ARGS,
        TFModelDataset.DEFAULT_SAVE_ARGS, [("compile", PyVal.vBool false)],
        [("save_format", PyVal.vStr "h5")], [("token", PyVal.vNone)],
        [("project", PyVal.vStr "p")]] : Heap).length ∧
      (3 : Nat) < ([TFModelDataset.DEFAULT_LOAD_ARGS,
        TFModelDataset.DEFAULT_SAVE_ARGS, [("compile", PyVal.vBool false)],
        [("save_format", PyVal.vStr "h5")], [("token", PyVal.vNone)],
        [("project", PyVal.vStr "p")]] : Heap).length ∧
      (4 : Nat) < ([TFModelDataset.DEFAULT_LOAD_ARGS,
        TFModelDataset.DEFAULT_SAVE_ARGS, [("compile", PyVal.vBool false)],
        [("save_format", PyVal.vStr "h5")], [("token", PyVal.vNone)],
        [("project", PyVal.vStr "p")]] : Heap).length ∧
      (5 : Nat) < ([TFModelDataset.DEFAULT_LOAD_ARGS,
        TFModelDataset.DEFAULT_SAVE_ARGS, [("compile", PyVal.vBool false)],
        [("save_format", PyVal.vStr "h5")], [("token", PyVal.vNone)],
        [("project", PyVal.vStr "p")]] : Heap).length) ∧
    hget (tfInitHeap [TFModelDataset.DEFAULT_LOAD_ARGS,
        TFModelDataset.DEFAULT_SAVE_ARGS, [("compile", PyVal.vBool false)],
        [("save_format", PyVal.vStr "h5")], [("token", PyVal.vNone)],
        [("project", PyVal.vStr "p")]] 0 1 (Option.some 2) (Option.some 3)).1 2
      = hget [TFModelDataset.DEFAULT_LOAD_ARGS,
        TFModelDataset.DEFAULT_SAVE_ARGS, [("compile", PyVal.vBool false)],
        [("save_format", PyVal.vStr "h5")], [("token", PyVal.vNone)],
        [("project", PyVal.vStr "p")]] 2 :=
  ⟨⟨by decide, by decide, by decide, by decide⟩,
    (constructor_args_not_mutated _ 0 1 2 3 4 5 (by decide) (by decide)
      (by decide) (by decide)).1⟩
